import Mathlib

/-!
Shallow embedding of `src/v1_basic_sdk.py` (an OpenAI-assistant research CLI).

Python strings are modelled as Lean `String`s; the Python string methods used
by the source (`str.lower`, `str.strip`, slicing `s[:n]`, `str.startswith`)
are modelled on the character list (`String.data`), since Python indexes and
slices by code point.  Network and vendor-SDK calls are modelled as explicit
trace inputs: an `Except String α` value stands for one remote call that
either returned a value or raised an exception whose `str(e)` is the error
string.  The whitespace class is the ASCII part of Python whitespace.
-/

namespace VBasic

/-- The ASCII whitespace characters recognised by Python `str.strip` and
regex `\s` (space, tab, newline, vertical tab, form feed, carriage return). -/
def is_py_space (c : Char) : Bool :=
  c == ' ' || c == '\t' || c == '\n' || c == '\x0b' || c == '\x0c' || c == '\r'

/-- Model of Python `str.lower()` (ASCII case mapping). -/
def py_lower (s : String) : String :=
  ⟨s.data.map Char.toLower⟩

/-- Model of Python `str.strip()`: drop leading and trailing whitespace. -/
def py_strip (s : String) : String :=
  ⟨(((s.data.dropWhile is_py_space).reverse.dropWhile is_py_space)).reverse⟩

/-- Model of the Python slice `s[:n]` (first `n` code points). -/
def py_take (s : String) (n : Nat) : String :=
  ⟨s.data.take n⟩

/-- Model of `re.sub(r'\s+', ' ', text)`: every maximal run of whitespace
becomes a single space.  From `src/v1_basic_sdk.py` line 34. -/
def collapse_ws : List Char → List Char
  | [] => []
  | c :: cs =>
    if is_py_space c then ' ' :: collapse_ws (cs.dropWhile is_py_space)
    else c :: collapse_ws cs
termination_by l => l.length
decreasing_by
  · simp only [List.length_cons]
    exact Nat.lt_succ_of_le (List.Sublist.length_le (List.dropWhile_sublist _))
  · simp

/-- `fetch_website_content` (lines 15-38).  The `try` block up to
`soup.get_text` is a remote fetch plus external HTML parsing, modelled by the
`http_result` input: `Except.ok page_text` is the text BeautifulSoup
extracted, `Except.error e` is `str(e)` of any exception raised in the block.
The local logic is the whitespace cleanup and the error-to-string recovery. -/
def fetch_website_content (http_result : Except String String) : String :=
  match http_result with
  | Except.ok page_text => py_strip ⟨collapse_ws page_text.data⟩
  | Except.error e => "Error fetching website content: " ++ e

/-- Character-list core of Python `str.startswith`. -/
def starts_with_chars : List Char → List Char → Bool
  | _, [] => true
  | [], _ :: _ => false
  | c :: cs, d :: ds => c == d && starts_with_chars cs ds

/-- Model of Python `s.startswith(pre)`. -/
def py_startswith (s pre : String) : Bool :=
  starts_with_chars s.data pre.data

/-- `input_text.startswith(('http://', 'https://'))` (line 71). -/
def is_url (input_text : String) : Bool :=
  py_startswith input_text "http://" || py_startswith input_text "https://"

/-- Fixed text of the URL-branch prompt before the embedded URL (lines 77-79). -/
def url_prompt_head : String :=
  "\n        Analyze the following company based on its website content:\n        URL: "

/-- Fixed text of the URL-branch prompt between the URL and the truncated
website content (lines 79-82). -/
def url_prompt_mid : String :=
  "\n        \n        Website Content:\n        "

/-- Fixed text of the URL-branch prompt after the truncated website content
(lines 82-85); the Python source places the comment text inside the f-string. -/
def url_prompt_tail : String :=
  "  # Limiting content length\n        \n        Please provide a detailed analysis of the company.\n        "

/-- The URL-branch `message_content` f-string (lines 77-85), with the
`website_content[:4000]` slice. -/
def url_message_content (company_identifier website_content : String) : String :=
  url_prompt_head ++ company_identifier ++ url_prompt_mid
    ++ py_take website_content 4000 ++ url_prompt_tail

/-- Fixed text of the name-branch prompt before the embedded name (lines 88-90). -/
def name_prompt_head : String :=
  "\n        Analyze the following company:\n        Company Name: "

/-- Fixed text of the name-branch prompt after the embedded name (lines 90-93). -/
def name_prompt_tail : String :=
  "\n        \n        Please provide a detailed analysis of the company based on your knowledge.\n        "

/-- The name-branch `message_content` f-string (lines 88-93). -/
def name_message_content (company_identifier : String) : String :=
  name_prompt_head ++ company_identifier ++ name_prompt_tail

/-- Lines 70-93 of `analyze_company_with_assistant`: classify the query and
assemble `message_content`, fetching website content only in the URL branch. -/
def build_message_content (input_text : String)
    (fetch_response : Except String String) : String :=
  if is_url input_text then
    url_message_content input_text (fetch_website_content fetch_response)
  else
    name_message_content input_text

/-- A remote assistant object; the program only uses its `id` (line 111). -/
structure Assistant where
  id : String
deriving DecidableEq

/-- A remote conversation thread; the program only uses its `id`. -/
structure AThread where
  id : String
deriving DecidableEq

/-- A run of an assistant against a thread, with its lifecycle `status`. -/
structure Run where
  id : String
  status : String
deriving DecidableEq

/-- The `.text` block of a message content part (line 137). -/
structure TextBlock where
  value : String
deriving DecidableEq

/-- One element of a message's `content` list. -/
structure ContentPart where
  text : TextBlock
deriving DecidableEq

/-- One message of a thread, as returned by `messages.list` (lines 126-137). -/
structure ThreadMessage where
  role : String
  content : List ContentPart
deriving DecidableEq

/-- The `messages` object returned by `client.beta.threads.messages.list`. -/
structure MessagesList where
  data : List ThreadMessage
deriving DecidableEq

/-- One query's worth of remote-service responses, in program order: each
field is what the corresponding SDK call returns (`Except.error e` models the
call raising an exception with message `e`).  `message_create_result` may
depend on the posted message body; `run_retrievals` is the sequence of
`runs.retrieve` results consumed by the poll loop. -/
structure ClientTrace where
  assistant_result : Except String Assistant
  thread_result : Except String AThread
  message_create_result : String → Except String Unit
  run_create_result : Except String Run
  run_retrievals : List (Except String Run)
  messages_list_result : Except String MessagesList

/-- The poll loop (lines 115-121): while the current run status is `queued`
or `in_progress`, sleep and retrieve the run again.  `Except.ok none` models
the loop still waiting after the given trace of retrievals is exhausted (the
Python loop has no bound and would simply keep polling). -/
def poll_run (run : Run) (retrievals : List (Except String Run)) :
    Except String (Option Run) :=
  if run.status = "queued" ∨ run.status = "in_progress" then
    match retrievals with
    | [] => Except.ok none
    | Except.error e :: _ => Except.error e
    | Except.ok next :: rest => poll_run next rest
  else
    Except.ok (some run)

/-- Lines 131-140: filter the listed messages to assistant-authored ones,
take the first (most recent), return its first content part's text if any;
otherwise fall through to the sentinel string. -/
def extract_analysis (messages_data : List ThreadMessage) : String :=
  match messages_data.filter (fun msg => msg.role = "assistant") with
  | [] => "No analysis was generated."
  | latest_message :: _ =>
    match latest_message.content with
    | [] => "No analysis was generated."
    | content_parts :: _ => content_parts.text.value

/-- `analyze_company_with_assistant` (lines 60-140): build the prompt, then
run the SDK call sequence, propagating any raised exception unchanged;
`Except.ok none` models the unbounded poll loop never returning. -/
def analyze_company_with_assistant (input_text : String)
    (fetch_response : Except String String) (tr : ClientTrace) :
    Except String (Option String) :=
  let message_content := build_message_content input_text fetch_response
  tr.assistant_result.bind (fun _assistant =>
  tr.thread_result.bind (fun _thread =>
  (tr.message_create_result message_content).bind (fun _ =>
  tr.run_create_result.bind (fun run =>
  (poll_run run tr.run_retrievals).bind (fun polled =>
    match polled with
    | none => Except.ok none
    | some _terminal =>
      tr.messages_list_result.bind (fun messages =>
        Except.ok (some (extract_analysis messages.data))))))))

/-- What one iteration of the `main` loop does after reading a line. -/
inductive LoopStep where
  | exit_loop : LoopStep
  | continue_loop : List String → LoopStep
  | hang : List String → LoopStep
deriving DecidableEq

/-- Printed before the orchestrator is invoked (line 157). -/
def analyzing_notice : String := "\nAnalyzing... This may take a moment."

/-- Printed after the loop exits (line 165). -/
def farewell_message : String := "\nThank you for using the Research Assistant!"

/-- One iteration of the `main` loop (lines 147-163): quit check on the
lowercased raw line, blank check on the stripped line, otherwise invoke the
orchestrator inside `try`/`except`.  The first component is the query passed
to the orchestrator (`none` when it is not invoked); the second is the
iteration outcome with the lines it prints. -/
def main_loop_iter (user_input : String) (fetch_response : Except String String)
    (tr : ClientTrace) : Option String × LoopStep :=
  if py_lower user_input = "quit" ∨ py_lower user_input = "exit"
      ∨ py_lower user_input = "q" then
    (none, LoopStep.exit_loop)
  else if py_strip user_input = "" then
    (none, LoopStep.continue_loop ["Please enter a valid company name or URL."])
  else
    match analyze_company_with_assistant user_input fetch_response tr with
    | Except.ok (some analysis) =>
        (some user_input, LoopStep.continue_loop [analyzing_notice, "\n" ++ analysis])
    | Except.error e =>
        (some user_input,
          LoopStep.continue_loop [analyzing_notice, "Error performing analysis: " ++ e])
    | Except.ok none => (some user_input, LoopStep.hang [analyzing_notice])

/-- The `main` loop (lines 147-165) driven by a script of input lines, each
paired with that query's fetch response and service trace; returns the lines
printed.  A `hang` stops output (the process is stuck in the poll loop). -/
def main_run : List (String × Except String String × ClientTrace) → List String
  | [] => []
  | (line, fetch_response, tr) :: rest =>
    match main_loop_iter line fetch_response tr with
    | (_, LoopStep.exit_loop) => [farewell_message]
    | (_, LoopStep.continue_loop printed) => printed ++ main_run rest
    | (_, LoopStep.hang printed) => printed

/-- A sample fetch response used to instantiate theorems at concrete inputs. -/
def sample_fetch : Except String String := Except.ok "Example Domain"

/-- A sample service trace where every call succeeds. -/
def sample_trace : ClientTrace where
  assistant_result := Except.ok ⟨"asst_1"⟩
  thread_result := Except.ok ⟨"thread_1"⟩
  message_create_result := fun _ => Except.ok ()
  run_create_result := Except.ok ⟨"run_1", "queued"⟩
  run_retrievals := [Except.ok ⟨"run_1", "completed"⟩]
  messages_list_result := Except.ok ⟨[⟨"assistant", [⟨⟨"Report text"⟩⟩]⟩]⟩

/-- A service trace whose assistant-creation call raises. -/
def sample_trace_fail : ClientTrace where
  assistant_result := Except.error "boom"
  thread_result := Except.ok ⟨"thread_1"⟩
  message_create_result := fun _ => Except.ok ()
  run_create_result := Except.ok ⟨"run_1", "queued"⟩
  run_retrievals := [Except.ok ⟨"run_1", "completed"⟩]
  messages_list_result := Except.ok ⟨[]⟩

theorem py_take_length_le (s : String) (n : Nat) : (py_take s n).length ≤ n := by
  simp only [py_take, String.length, List.length_take]
  omega

theorem py_take_data_isPre (s : String) (n : Nat) :
    (py_take s n).data <+: s.data :=
  ⟨s.data.drop n, List.take_append_drop n s.data⟩

/-- Claim C1: for a URL-classified query, the prompt assembled by
`analyze_company_with_assistant` embeds exactly the slice
`website_content[:4000]` of the string `fetch_website_content` returned,
between fixed text pieces; that slice has at most 4000 characters and is a
prefix of the fetched text, so no more of it reaches the prompt. -/
theorem url_prompt_embeds_truncated_fetch (q : String) (r : Except String String)
    (h : is_url q = true) :
    build_message_content q r
      = url_prompt_head ++ q ++ url_prompt_mid
        ++ py_take (fetch_website_content r) 4000 ++ url_prompt_tail
    ∧ (py_take (fetch_website_content r) 4000).length ≤ 4000
    ∧ (py_take (fetch_website_content r) 4000).data <+: (fetch_website_content r).data := by
  refine ⟨?_, py_take_length_le _ _, py_take_data_isPre _ _⟩
  simp [build_message_content, h, url_message_content]

/-- Witness for C1 at a concrete URL query and fetch response. -/
theorem url_prompt_embeds_truncated_fetch_witness :
    build_message_content "https://example.com" (Except.ok "hello world")
      = url_prompt_head ++ "https://example.com" ++ url_prompt_mid
        ++ py_take (fetch_website_content (Except.ok "hello world")) 4000 ++ url_prompt_tail
    ∧ (py_take (fetch_website_content (Except.ok "hello world")) 4000).length ≤ 4000 :=
  ⟨(url_prompt_embeds_truncated_fetch "https://example.com" (Except.ok "hello world")
      (by decide)).1,
   (url_prompt_embeds_truncated_fetch "https://example.com" (Except.ok "hello world")
      (by decide)).2.1⟩

/-- Claim C4: when the HTTP GET or response handling raises (any transport or
status error), `fetch_website_content` returns, rather than raising, the
error message string, which begins with the fixed text. -/
theorem fetch_error_returns_error_string (e : String) :
    fetch_website_content (Except.error e) = "Error fetching website content: " ++ e
    ∧ "Error fetching website content:".data <+: (fetch_website_content (Except.error e)).data := by
  refine ⟨rfl, ?_⟩
  show "Error fetching website content:".data <+: ("Error fetching website content: " ++ e).data
  rw [String.data_append,
    show ("Error fetching website content: " : String).data
      = "Error fetching website content:".data ++ [' '] from by decide,
    List.append_assoc]
  exact ⟨' ' :: e.data, rfl⟩

/-- Claim C5: the orchestrator does not branch on fetch failure: for a URL
query the prompt is always the same function of whatever string
`fetch_website_content` returned, and on failure the error string is embedded
verbatim (then truncated like page content) in place of page content. -/
theorem fetch_error_laundered_into_prompt (q e : String) (h : is_url q = true) :
    (∀ r : Except String String,
        build_message_content q r = url_message_content q (fetch_website_content r))
    ∧ build_message_content q (Except.error e)
        = url_message_content q ("Error fetching website content: " ++ e) := by
  constructor
  · intro r
    simp [build_message_content, h]
  · simp [build_message_content, h]
    rfl

/-- Witness for C5 at a concrete URL query and fetch error. -/
theorem fetch_error_laundered_into_prompt_witness :
    build_message_content "http://unreachable.test" (Except.error "timeout")
      = url_message_content "http://unreachable.test"
          ("Error fetching website content: " ++ "timeout") :=
  (fetch_error_laundered_into_prompt "http://unreachable.test" "timeout" (by decide)).2

set_option maxRecDepth 4000 in
/-- Claim C8: for a non-URL query the fetch response never influences the
prompt (the fetcher is not invoked), the prompt is the company name between
two fixed text pieces, and neither fixed piece contains a Website Content
section. -/
theorem non_url_prompt_no_website_content (q : String) (h : is_url q = false) :
    (∀ r₁ r₂ : Except String String,
        build_message_content q r₁ = build_message_content q r₂)
    ∧ (∀ r : Except String String,
        build_message_content q r = name_prompt_head ++ q ++ name_prompt_tail)
    ∧ ¬ ("Website Content".data <:+: name_prompt_head.data)
    ∧ ¬ ("Website Content".data <:+: name_prompt_tail.data) := by
  refine ⟨?_, ?_, by decide, by decide⟩
  · intro r₁ r₂
    simp [build_message_content, h]
  · intro r
    simp [build_message_content, h, name_message_content]

/-- Witness for C8 at a concrete company-name query. -/
theorem non_url_prompt_no_website_content_witness :
    build_message_content "Acme Corp" (Except.error "unused")
      = name_prompt_head ++ "Acme Corp" ++ name_prompt_tail :=
  (non_url_prompt_no_website_content "Acme Corp" (by decide)).2.1 (Except.error "unused")

/-- Claim C3: when no message in the listed data is assistant-authored,
`analyze_company_with_assistant` message extraction returns exactly the
sentinel string. -/
theorem no_assistant_message_sentinel (messages_data : List ThreadMessage)
    (h : ∀ m ∈ messages_data, m.role ≠ "assistant") :
    extract_analysis messages_data = "No analysis was generated." := by
  have hf : messages_data.filter (fun msg => msg.role = "assistant") = [] := by
    rw [List.filter_eq_nil_iff]
    intro a ha
    simp [h a ha]
  simp [extract_analysis, hf]

/-- Witness for C3 on a message list with only a user message. -/
theorem no_assistant_message_sentinel_witness :
    extract_analysis [ThreadMessage.mk "user" [ContentPart.mk (TextBlock.mk "hi")]]
      = "No analysis was generated." :=
  no_assistant_message_sentinel _ (by decide)

/-- Claim C9: the sentinel is not exclusive to the zero-assistant-message
case: a list holding one assistant message with an empty content list also
yields the sentinel. -/
theorem assistant_empty_content_sentinel :
    extract_analysis [ThreadMessage.mk "assistant" []] = "No analysis was generated."
    ∧ (ThreadMessage.mk "assistant" []).role = "assistant"
    ∧ (ThreadMessage.mk "assistant" []).content = [] :=
  ⟨rfl, rfl, rfl⟩

theorem poll_run_terminal (r : Run) (rs : List (Except String Run))
    (h : ¬(r.status = "queued" ∨ r.status = "in_progress")) :
    poll_run r rs = Except.ok (some r) := by
  rw [poll_run.eq_def, if_neg h]

theorem poll_run_exhausted (r : Run)
    (h : r.status = "queued" ∨ r.status = "in_progress") :
    poll_run r [] = Except.ok none := by
  rw [poll_run.eq_def, if_pos h]

theorem poll_run_step (r next : Run) (rest : List (Except String Run))
    (h : r.status = "queued" ∨ r.status = "in_progress") :
    poll_run r (Except.ok next :: rest) = poll_run next rest := by
  rw [poll_run.eq_def, if_pos h]

theorem poll_run_step_error (r : Run) (e : String) (rest : List (Except String Run))
    (h : r.status = "queued" ∨ r.status = "in_progress") :
    poll_run r (Except.error e :: rest) = Except.error e := by
  rw [poll_run.eq_def, if_pos h]

/-- Claim C2: the poll loop never yields a run whose status is still
`queued` or `in_progress`; it returns immediately when the current status is
any other value; it stops at the first retrieved run with such a status,
whatever follows in the trace; and on a terminal run the orchestrator
proceeds to listing messages and extracting the analysis. -/
theorem poll_loop_spec :
    (∀ (r : Run) (rs : List (Except String Run)) (t : Run),
        poll_run r rs = Except.ok (some t) →
          t.status ≠ "queued" ∧ t.status ≠ "in_progress")
    ∧ (∀ (r : Run) (rs : List (Except String Run)),
        r.status ≠ "queued" → r.status ≠ "in_progress" →
          poll_run r rs = Except.ok (some r))
    ∧ (∀ (r : Run) (pre : List Run) (t : Run) (rest : List (Except String Run)),
        (∀ x ∈ r :: pre, x.status = "queued" ∨ x.status = "in_progress") →
        ¬(t.status = "queued" ∨ t.status = "in_progress") →
          poll_run r (pre.map Except.ok ++ Except.ok t :: rest) = Except.ok (some t))
    ∧ (∀ (input_text : String) (f : Except String String) (tr : ClientTrace)
        (a : Assistant) (th : AThread) (run t : Run) (ms : MessagesList),
        tr.assistant_result = Except.ok a →
        tr.thread_result = Except.ok th →
        tr.message_create_result (build_message_content input_text f) = Except.ok () →
        tr.run_create_result = Except.ok run →
        poll_run run tr.run_retrievals = Except.ok (some t) →
        tr.messages_list_result = Except.ok ms →
          analyze_company_with_assistant input_text f tr
            = Except.ok (some (extract_analysis ms.data))) := by
  refine ⟨?_, ?_, ?_, ?_⟩
  · intro r rs t
    induction rs generalizing r with
    | nil =>
      intro hres
      by_cases hw : r.status = "queued" ∨ r.status = "in_progress"
      · rw [poll_run_exhausted r hw] at hres
        exact absurd hres (by simp)
      · rw [poll_run_terminal r [] hw] at hres
        have hrt : r = t := by simpa using hres
        subst hrt
        exact ⟨fun hq => hw (Or.inl hq), fun hp => hw (Or.inr hp)⟩
    | cons head rest ih =>
      intro hres
      by_cases hw : r.status = "queued" ∨ r.status = "in_progress"
      · cases head with
        | error e =>
          rw [poll_run_step_error r e rest hw] at hres
          exact absurd hres (by simp)
        | ok next =>
          rw [poll_run_step r next rest hw] at hres
          exact ih next hres
      · rw [poll_run_terminal r _ hw] at hres
        have hrt : r = t := by simpa using hres
        subst hrt
        exact ⟨fun hq => hw (Or.inl hq), fun hp => hw (Or.inr hp)⟩
  · intro r rs h1 h2
    exact poll_run_terminal r rs (fun hc => hc.elim h1 h2)
  · intro r pre t rest
    induction pre generalizing r with
    | nil =>
      intro hall ht
      simp only [List.map_nil, List.nil_append]
      rw [poll_run_step r t rest (hall r (by simp))]
      exact poll_run_terminal t rest ht
    | cons p ps ih =>
      intro hall ht
      simp only [List.map_cons, List.cons_append]
      rw [poll_run_step r p _ (hall r (by simp))]
      exact ih p (fun x hx => hall x (List.mem_cons_of_mem r hx)) ht
  · intro input_text f tr a th run t ms h1 h2 h3 h4 h5 h6
    simp [analyze_company_with_assistant, h1, h2, h3, h4, h5, h6, Except.bind]

/-- Witness for C2: a queued run that turns `completed` after one retrieval,
and the successful sample trace reaching message extraction. -/
theorem poll_loop_spec_witness :
    poll_run ⟨"run_1", "queued"⟩
        [Except.ok ⟨"run_1", "in_progress"⟩, Except.ok ⟨"run_1", "completed"⟩]
      = Except.ok (some ⟨"run_1", "completed"⟩)
    ∧ analyze_company_with_assistant "Acme" sample_fetch sample_trace
      = Except.ok (some (extract_analysis [⟨"assistant", [⟨⟨"Report text"⟩⟩]⟩])) :=
  ⟨poll_loop_spec.2.2.1 ⟨"run_1", "queued"⟩ [⟨"run_1", "in_progress"⟩]
      ⟨"run_1", "completed"⟩ [] (by decide) (by decide),
   poll_loop_spec.2.2.2 "Acme" sample_fetch sample_trace
      ⟨"asst_1"⟩ ⟨"thread_1"⟩ ⟨"run_1", "queued"⟩ ⟨"run_1", "completed"⟩
      ⟨[⟨"assistant", [⟨⟨"Report text"⟩⟩]⟩]⟩ rfl rfl rfl rfl rfl rfl⟩

theorem toLower_of_space {c : Char} (h : is_py_space c = true) : c.toLower = c := by
  simp only [is_py_space, Bool.or_eq_true, beq_iff_eq] at h
  rcases h with (((((h | h) | h) | h) | h) | h) <;> subst h <;> decide

theorem map_toLower_of_space {l : List Char} (h : ∀ c ∈ l, is_py_space c = true) :
    l.map Char.toLower = l := by
  induction l with
  | nil => rfl
  | cons c cs ih =>
    simp only [List.map_cons]
    rw [toLower_of_space (h c (by simp)), ih (fun x hx => h x (by simp [hx]))]

theorem py_lower_of_space {s : String} (h : s.data.all is_py_space = true) :
    py_lower s = s := by
  have h' : ∀ c ∈ s.data, is_py_space c = true := by
    simpa [List.all_eq_true] using h
  cases s with
  | mk data =>
    show String.mk (data.map Char.toLower) = String.mk data
    exact congrArg String.mk (map_toLower_of_space h')

theorem py_strip_of_space {s : String} (h : s.data.all is_py_space = true) :
    py_strip s = "" := by
  have h' : ∀ c ∈ s.data, is_py_space c = true := by
    simpa [List.all_eq_true] using h
  have hd : s.data.dropWhile is_py_space = [] := by
    rw [List.dropWhile_eq_nil_iff]
    exact h'
  simp [py_strip, hd]

theorem quit_words_not_space (s : String) (h : s.data.all is_py_space = true) :
    py_lower s ≠ "quit" ∧ py_lower s ≠ "exit" ∧ py_lower s ≠ "q" := by
  rw [py_lower_of_space h]
  refine ⟨?_, ?_, ?_⟩ <;> rintro rfl <;> exact absurd h (by decide)

theorem loop_iter_quit_word (w : String)
    (hw : w = "quit" ∨ w = "QUIT" ∨ w = "exit" ∨ w = "q")
    (f : Except String String) (tr : ClientTrace) :
    main_loop_iter w f tr = (none, LoopStep.exit_loop) := by
  rcases hw with rfl | rfl | rfl | rfl <;>
    · unfold main_loop_iter
      rw [if_pos (by decide)]

/-- Claim C6: an empty or whitespace-only line never invokes the
orchestrator and makes the loop re-prompt with the validation message; each
of the lines quit, QUIT, exit, q exits the loop without invoking the
orchestrator, after which only the farewell message is printed. -/
theorem cli_blank_and_quit_handling :
    (∀ (s : String) (f : Except String String) (tr : ClientTrace),
        s.data.all is_py_space = true →
          main_loop_iter s f tr
            = (none, LoopStep.continue_loop ["Please enter a valid company name or URL."]))
    ∧ (∀ w, (w = "quit" ∨ w = "QUIT" ∨ w = "exit" ∨ w = "q") →
        ∀ (f : Except String String) (tr : ClientTrace),
          main_loop_iter w f tr = (none, LoopStep.exit_loop))
    ∧ (∀ w, (w = "quit" ∨ w = "QUIT" ∨ w = "exit" ∨ w = "q") →
        ∀ (f : Except String String) (tr : ClientTrace)
          (rest : List (String × Except String String × ClientTrace)),
          main_run ((w, f, tr) :: rest) = [farewell_message]) := by
  refine ⟨?_, loop_iter_quit_word, ?_⟩
  · intro s f tr h
    obtain ⟨h1, h2, h3⟩ := quit_words_not_space s h
    unfold main_loop_iter
    rw [if_neg (by tauto), if_pos (py_strip_of_space h)]
  · intro w hw f tr rest
    unfold main_run
    rw [loop_iter_quit_word w hw f tr]

/-- Witness for C6 at a whitespace-only line and concrete quit lines. -/
theorem cli_blank_and_quit_handling_witness :
    main_loop_iter "   " sample_fetch sample_trace
      = (none, LoopStep.continue_loop ["Please enter a valid company name or URL."])
    ∧ main_loop_iter "QUIT" sample_fetch sample_trace = (none, LoopStep.exit_loop)
    ∧ main_run [("quit", sample_fetch, sample_trace)] = [farewell_message] :=
  ⟨cli_blank_and_quit_handling.1 "   " sample_fetch sample_trace (by decide),
   cli_blank_and_quit_handling.2.1 "QUIT" (Or.inr (Or.inl rfl)) sample_fetch sample_trace,
   cli_blank_and_quit_handling.2.2 "quit" (Or.inl rfl) sample_fetch sample_trace []⟩

/-- Claim C7: an exception raised by any of the remote calls of
`analyze_company_with_assistant` (assistant creation, thread creation,
message posting, run creation, run polling, message listing) propagates out
of it unchanged; the CLI loop then catches it, prints the error line, and
continues (does not exit), so the query does not terminate the process. -/
theorem service_error_flow (input_text : String) (f : Except String String)
    (tr : ClientTrace) (e : String) :
    (tr.assistant_result = Except.error e →
        analyze_company_with_assistant input_text f tr = Except.error e)
    ∧ (∀ a : Assistant, tr.assistant_result = Except.ok a →
        tr.thread_result = Except.error e →
        analyze_company_with_assistant input_text f tr = Except.error e)
    ∧ (∀ (a : Assistant) (th : AThread), tr.assistant_result = Except.ok a →
        tr.thread_result = Except.ok th →
        tr.message_create_result (build_message_content input_text f) = Except.error e →
        analyze_company_with_assistant input_text f tr = Except.error e)
    ∧ (∀ (a : Assistant) (th : AThread), tr.assistant_result = Except.ok a →
        tr.thread_result = Except.ok th →
        tr.message_create_result (build_message_content input_text f) = Except.ok () →
        tr.run_create_result = Except.error e →
        analyze_company_with_assistant input_text f tr = Except.error e)
    ∧ (∀ (a : Assistant) (th : AThread) (run : Run), tr.assistant_result = Except.ok a →
        tr.thread_result = Except.ok th →
        tr.message_create_result (build_message_content input_text f) = Except.ok () →
        tr.run_create_result = Except.ok run →
        poll_run run tr.run_retrievals = Except.error e →
        analyze_company_with_assistant input_text f tr = Except.error e)
    ∧ (∀ (a : Assistant) (th : AThread) (run t : Run), tr.assistant_result = Except.ok a →
        tr.thread_result = Except.ok th →
        tr.message_create_result (build_message_content input_text f) = Except.ok () →
        tr.run_create_result = Except.ok run →
        poll_run run tr.run_retrievals = Except.ok (some t) →
        tr.messages_list_result = Except.error e →
        analyze_company_with_assistant input_text f tr = Except.error e)
    ∧ (py_lower input_text ≠ "quit" → py_lower input_text ≠ "exit" →
        py_lower input_text ≠ "q" → py_strip input_text ≠ "" →
        analyze_company_with_assistant input_text f tr = Except.error e →
        main_loop_iter input_text f tr
          = (some input_text,
             LoopStep.continue_loop [analyzing_notice, "Error performing analysis: " ++ e])) := by
  refine ⟨?_, ?_, ?_, ?_, ?_, ?_, ?_⟩
  · intro h1
    simp [analyze_company_with_assistant, h1, Except.bind]
  · intro a h1 h2
    simp [analyze_company_with_assistant, h1, h2, Except.bind]
  · intro a th h1 h2 h3
    simp [analyze_company_with_assistant, h1, h2, h3, Except.bind]
  · intro a th h1 h2 h3 h4
    simp [analyze_company_with_assistant, h1, h2, h3, h4, Except.bind]
  · intro a th run h1 h2 h3 h4 h5
    simp [analyze_company_with_assistant, h1, h2, h3, h4, h5, Except.bind]
  · intro a th run t h1 h2 h3 h4 h5 h6
    simp [analyze_company_with_assistant, h1, h2, h3, h4, h5, h6, Except.bind]
  · intro h1 h2 h3 h4 h5
    unfold main_loop_iter
    rw [if_neg (by tauto), if_neg h4, h5]

/-- Witness for C7: a trace whose assistant-creation call raises. -/
theorem service_error_flow_witness :
    analyze_company_with_assistant "Acme" sample_fetch sample_trace_fail = Except.error "boom"
    ∧ main_loop_iter "Acme" sample_fetch sample_trace_fail
      = (some "Acme",
         LoopStep.continue_loop [analyzing_notice, "Error performing analysis: " ++ "boom"]) :=
  ⟨(service_error_flow "Acme" sample_fetch sample_trace_fail "boom").1 rfl,
   (service_error_flow "Acme" sample_fetch sample_trace_fail "boom").2.2.2.2.2.2
     (by decide) (by decide) (by decide) (by decide)
     ((service_error_flow "Acme" sample_fetch sample_trace_fail "boom").1 rfl)⟩

theorem py_lower_append (x y : String) :
    py_lower (x ++ y) = py_lower x ++ py_lower y := by
  cases x with
  | mk xd =>
    cases y with
    | mk yd =>
      show String.mk ((xd ++ yd).map Char.toLower)
        = String.mk (xd.map Char.toLower ++ yd.map Char.toLower)
      rw [List.map_append]

theorem py_strip_empty_all_space {s : String} (h : py_strip s = "") :
    ∀ c ∈ s.data, is_py_space c = true := by
  have h0 : (((s.data.dropWhile is_py_space).reverse.dropWhile is_py_space)).reverse = [] :=
    congrArg String.data h
  rw [List.reverse_eq_nil_iff, List.dropWhile_eq_nil_iff] at h0
  have h1 : ∀ x ∈ s.data.dropWhile is_py_space, is_py_space x = true :=
    fun x hx => h0 x (List.mem_reverse.mpr hx)
  intro c hc
  rw [← List.takeWhile_append_dropWhile is_py_space s.data] at hc
  rcases List.mem_append.mp hc with hcm | hcm
  · exact List.mem_takeWhile_imp hcm
  · exact h1 c hcm

/-- Claim C10: the quit check lowercases but does not trim, so a line that is
one of the quit words with genuine surrounding whitespace does not exit the
loop: the orchestrator is invoked, with the untrimmed line as the query. -/
theorem quit_with_surrounding_ws_invokes (s a w b : String)
    (hw : w = "quit" ∨ w = "exit" ∨ w = "q")
    (ha : a.data.all is_py_space = true) (hb : b.data.all is_py_space = true)
    (hs : s = a ++ w ++ b) (hne : s ≠ w)
    (f : Except String String) (tr : ClientTrace) :
    (main_loop_iter s f tr).1 = some s
    ∧ (main_loop_iter s f tr).2 ≠ LoopStep.exit_loop := by
  have ha' : ∀ c ∈ a.data, is_py_space c = true := by
    simpa [List.all_eq_true] using ha
  have hb' : ∀ c ∈ b.data, is_py_space c = true := by
    simpa [List.all_eq_true] using hb
  have hwlow : py_lower w = w := by
    rcases hw with rfl | rfl | rfl <;> decide
  have hlow : py_lower s = s := by
    rw [hs, py_lower_append, py_lower_append, py_lower_of_space ha,
      py_lower_of_space hb, hwlow]
  have hdata : s.data = a.data ++ w.data ++ b.data := by
    rw [hs, String.data_append, String.data_append]
  have hsnotword : ∀ v : String, (∀ c ∈ v.data, is_py_space c = false) → s ≠ v := by
    intro v hv hsv
    have hvdata : a.data ++ w.data ++ b.data = v.data := by rw [← hdata, hsv]
    have hanil : a.data = [] := by
      rw [List.eq_nil_iff_forall_not_mem]
      intro c hc
      have hcs : c ∈ v.data := by
        rw [← hvdata]
        exact List.mem_append_left _ (List.mem_append_left _ hc)
      have hcf := hv c hcs
      rw [ha' c hc] at hcf
      cases hcf
    have hbnil : b.data = [] := by
      rw [List.eq_nil_iff_forall_not_mem]
      intro c hc
      have hcs : c ∈ v.data := by
        rw [← hvdata]
        exact List.mem_append_right _ hc
      have hcf := hv c hcs
      rw [hb' c hc] at hcf
      cases hcf
    have haemp : a = "" := by
      cases a with
      | mk d => exact congrArg String.mk hanil
    have hbemp : b = "" := by
      cases b with
      | mk d => exact congrArg String.mk hbnil
    rw [haemp, hbemp] at hs
    apply hne
    rw [hs]
    simp
  have hstrip : py_strip s ≠ "" := by
    intro hemp
    have hall := py_strip_empty_all_space hemp
    have hwmem : ∃ c ∈ w.data, is_py_space c = false := by
      rcases hw with rfl | rfl | rfl
      · exact ⟨'q', by decide, by decide⟩
      · exact ⟨'e', by decide, by decide⟩
      · exact ⟨'q', by decide, by decide⟩
    obtain ⟨c, hcw, hcf⟩ := hwmem
    have hcs : c ∈ s.data := by
      rw [hdata]
      exact List.mem_append_left _ (List.mem_append_right _ hcw)
    have hct := hall c hcs
    rw [hcf] at hct
    cases hct
  have hnq1 : py_lower s ≠ "quit" := by
    rw [hlow]; exact hsnotword "quit" (by decide)
  have hnq2 : py_lower s ≠ "exit" := by
    rw [hlow]; exact hsnotword "exit" (by decide)
  have hnq3 : py_lower s ≠ "q" := by
    rw [hlow]; exact hsnotword "q" (by decide)
  unfold main_loop_iter
  rw [if_neg (by tauto), if_neg hstrip]
  rcases hres : analyze_company_with_assistant s f tr with e0 | o
  · exact ⟨rfl, by simp⟩
  · cases o with
    | none => exact ⟨rfl, by simp⟩
    | some analysis => exact ⟨rfl, by simp⟩

/-- Witness for C10 at the line quit surrounded by spaces. -/
theorem quit_with_surrounding_ws_invokes_witness :
    (main_loop_iter " quit " sample_fetch sample_trace).1 = some " quit "
    ∧ (main_loop_iter " quit " sample_fetch sample_trace).2 ≠ LoopStep.exit_loop :=
  quit_with_surrounding_ws_invokes " quit " " " "quit" " " (Or.inl rfl)
    (by decide) (by decide) rfl (by decide) sample_fetch sample_trace

end VBasic
